import Mathlib

/-!
Shallow embedding of `src/core/mod.rs` of the `webgpu-101` repository.

The program is a single-window skeleton application: an `AppState` owning a
surface, device, queue, surface configuration and the current window size,
driven by a winit event loop.  GPU-side calls (`surface.configure`,
`create_view`, `create_command_encoder`, `begin_render_pass`, `queue.submit`,
`surface_texture.present`) are modelled as an explicit list of `Effect`s
emitted by each operation, so that statements about "what the code does to
the GPU" become statements about the emitted trace.  Opaque driver handles
(surface, device, queue, textures) are modelled as `Nat` identifiers; the
result of `surface.get_current_texture()` is an input to `render`, since it
is produced by the driver, not by this program.
-/

namespace WebGpu101

/-- `winit::dpi::PhysicalSize<u32>`: a window size in physical pixels. -/
structure PhysicalSize where
  width : Nat
  height : Nat
deriving DecidableEq, Repr

/-- A fragment of `wgpu::TextureFormat`, enough to model the sRGB test. -/
inductive TextureFormat where
  | Rgba8Unorm
  | Rgba8UnormSrgb
  | Bgra8Unorm
  | Bgra8UnormSrgb
  | Rgba16Float
deriving DecidableEq, Repr

/-- `wgpu::TextureFormat::is_srgb`: true exactly for the sRGB variants. -/
def TextureFormat.is_srgb : TextureFormat → Bool
  | .Rgba8UnormSrgb => true
  | .Bgra8UnormSrgb => true
  | _ => false

/-- `wgpu::PresentMode` (the variants relevant to this program). -/
inductive PresentMode where
  | Fifo
  | Immediate
  | Mailbox
deriving DecidableEq, Repr

/-- `wgpu::CompositeAlphaMode` (the variants relevant to this program). -/
inductive CompositeAlphaMode where
  | Auto
  | Opaque
  | PreMultiplied
deriving DecidableEq, Repr

/-- `wgpu::TextureUsages`; the program only ever uses `RENDER_ATTACHMENT`. -/
inductive TextureUsages where
  | RENDER_ATTACHMENT
deriving DecidableEq, Repr

/-- `wgpu::SurfaceConfiguration`, with all fields the source sets. -/
structure SurfaceConfiguration where
  usage : TextureUsages
  format : TextureFormat
  width : Nat
  height : Nat
  present_mode : PresentMode
  alpha_mode : CompositeAlphaMode
  view_formats : List TextureFormat
deriving DecidableEq, Repr

/-- `wgpu::Color`.  The source only uses the exact literals 1.0, so the
channels are modelled as rationals, which represent them exactly. -/
structure Color where
  r : Rat
  g : Rat
  b : Rat
  a : Rat
deriving DecidableEq, Repr

/-- `wgpu::LoadOp<Color>` as used by the render pass. -/
inductive LoadOp where
  | Clear (color : Color)
  | Load
deriving DecidableEq, Repr

/-- `wgpu::Operations<Color>`: load op and the `store` flag. -/
structure Operations where
  load : LoadOp
  store : Bool
deriving DecidableEq, Repr

/-- `wgpu::RenderPassColorAttachment`; texture views are `Nat` handles. -/
structure RenderPassColorAttachment where
  view : Nat
  resolve_target : Option Nat
  ops : Operations
deriving DecidableEq, Repr

/-- `wgpu::RenderPassDescriptor` (depth/stencil modelled as a handle). -/
structure RenderPassDescriptor where
  label : Option String
  color_attachments : List (Option RenderPassColorAttachment)
  depth_stencil_attachment : Option Nat
deriving DecidableEq, Repr

/-- `wgpu::SurfaceError`: the errors `get_current_texture` can return. -/
inductive SurfaceError where
  | Timeout
  | Outdated
  | Lost
  | OutOfMemory
deriving DecidableEq, Repr

/-- `wgpu::SurfaceTexture`, as a handle to the acquired texture. -/
structure SurfaceTexture where
  texture : Nat
deriving DecidableEq, Repr

/-- The winit `Window`: its id and its current inner size. -/
structure Window where
  id : Nat
  inner_size : PhysicalSize
deriving DecidableEq, Repr

/-- The `AppState` struct of `src/core/mod.rs`. -/
structure AppState where
  surface : Nat
  device : Nat
  queue : Nat
  surface_config : SurfaceConfiguration
  size : PhysicalSize
  window : Window
deriving DecidableEq, Repr

/-- One observable GPU/host call made by the program, in program order. -/
inductive Effect where
  | configureSurface (device : Nat) (config : SurfaceConfiguration)
  | createView (texture : Nat)
  | createCommandEncoder (label : Option String)
  | beginRenderPass (desc : RenderPassDescriptor)
  | submit (num_command_buffers : Nat)
  | present
  | logError (e : SurfaceError)
  | requestRedraw
deriving DecidableEq, Repr

/-- `AppState::new`.  The adapter/device/queue negotiation succeeds with
opaque handles (their failure aborts the process and yields no state at
all); the surface format is `formats.iter().find(|f| f.is_srgb())
.unwrap_or(formats[0])`, where an empty capability list makes the `[0]`
index panic, modelled as `none`.  The configuration copies the window's
inner size unchecked and the surface is configured once. -/
def AppState.new (window : Window) (formats : List TextureFormat) :
    Option (AppState × List Effect) :=
  match formats with
  | [] => none
  | f0 :: _ =>
    let size := window.inner_size
    let surface_format := (formats.find? TextureFormat.is_srgb).getD f0
    let surface_config : SurfaceConfiguration :=
      { usage := TextureUsages.RENDER_ATTACHMENT
        format := surface_format
        width := size.width
        height := size.height
        present_mode := PresentMode.Fifo
        alpha_mode := CompositeAlphaMode.Auto
        view_formats := [] }
    some ({ surface := 0
            device := 0
            queue := 0
            surface_config := surface_config
            size := size
            window := window },
          [Effect.configureSurface 0 surface_config])

/-- `AppState::resize`: if both dimensions are positive, store the new size,
update the configuration's width and height and reconfigure the surface;
otherwise do nothing. -/
def AppState.resize (s : AppState) (new_size : PhysicalSize) :
    AppState × List Effect :=
  if 0 < new_size.width ∧ 0 < new_size.height then
    let surface_config :=
      { s.surface_config with width := new_size.width, height := new_size.height }
    ({ s with size := new_size, surface_config := surface_config },
     [Effect.configureSurface s.device surface_config])
  else
    (s, [])

/-- The clear color of the render pass: opaque white, all channels 1.0. -/
def clearColor : Color := { r := 1, g := 1, b := 1, a := 1 }

/-- The render pass descriptor built inside `AppState::render`: one color
attachment targeting the acquired texture's view, no resolve target,
clear-to-white load op with `store: true`, no depth/stencil. -/
def renderPassDesc : RenderPassDescriptor :=
  { label := some "Render Pass"
    color_attachments :=
      [some { view := 0
              resolve_target := none
              ops := { load := LoadOp.Clear clearColor, store := true } }]
    depth_stencil_attachment := none }

/-- `AppState::render`.  The `?` on `get_current_texture` returns the
surface error before anything else happens; on success the view, the
encoder, the single render pass, one submitted command buffer
(`iter::once`) and one `present` follow in order.  The method never writes
to any field of `self`, which the returned state makes explicit. -/
def AppState.render (s : AppState)
    (acquire : Except SurfaceError SurfaceTexture) :
    AppState × Except SurfaceError Unit × List Effect :=
  match acquire with
  | .error e => (s, .error e, [])
  | .ok surface_texture =>
    (s, .ok (),
     [Effect.createView surface_texture.texture,
      Effect.createCommandEncoder (some "Render Encoder"),
      Effect.beginRenderPass renderPassDesc,
      Effect.submit 1,
      Effect.present])

/-- `winit::event::ElementState`. -/
inductive ElementState where
  | Pressed
  | Released
deriving DecidableEq, Repr

/-- `winit::event::VirtualKeyCode` (the variants this program matches on,
plus a representative other key). -/
inductive VirtualKeyCode where
  | Escape
  | Space
deriving DecidableEq, Repr

/-- The window events the event loop matches on. -/
inductive WindowEvent where
  | CloseRequested
  | KeyboardInput (state : ElementState) (virtual_keycode : Option VirtualKeyCode)
  | Resized (physical_size : PhysicalSize)
  | ScaleFactorChanged (new_inner_size : PhysicalSize)
  | Other
deriving DecidableEq, Repr

/-- The top-level winit events the event loop matches on; window events and
redraw requests carry the id of the window they concern. -/
inductive Event where
  | windowEvent (window_id : Nat) (event : WindowEvent)
  | redrawRequested (window_id : Nat)
  | mainEventsCleared
  | other
deriving DecidableEq, Repr

/-- `winit::event_loop::ControlFlow` (the variants this program uses). -/
inductive ControlFlow where
  | Poll
  | Wait
  | Exit
deriving DecidableEq, Repr

/-- `AppState::input`: always reports the event as not fully processed.
The method takes `&mut self` but writes nothing, so it is a pure `Bool`. -/
def AppState.input (_s : AppState) (_event : WindowEvent) : Bool :=
  false

/-- `AppState::update`: a placeholder that does nothing. -/
def AppState.update (s : AppState) : AppState :=
  s

/-- One invocation of the closure passed to `event_loop.run` in `run`:
given the current state, the current control flow, the incoming event and
the driver's answer to `get_current_texture` (consulted only on a redraw),
it returns the new state, the new control flow and the emitted effects. -/
def runIteration (s : AppState) (control_flow : ControlFlow) (event : Event)
    (acquire : Except SurfaceError SurfaceTexture) :
    AppState × ControlFlow × List Effect :=
  match event with
  | .windowEvent window_id e =>
    if window_id = s.window.id then
      if ¬ s.input e then
        match e with
        | .CloseRequested => (s, ControlFlow.Exit, [])
        | .KeyboardInput ElementState.Pressed (some VirtualKeyCode.Escape) =>
          (s, ControlFlow.Exit, [])
        | .KeyboardInput _ _ => (s, control_flow, [])
        | .Resized physical_size =>
          let (s', effects) := s.resize physical_size
          (s', control_flow, effects)
        | .ScaleFactorChanged new_inner_size =>
          let (s', effects) := s.resize new_inner_size
          (s', control_flow, effects)
        | .Other => (s, control_flow, [])
      else
        (s, control_flow, [])
    else
      (s, control_flow, [])
  | .redrawRequested window_id =>
    if window_id = s.window.id then
      let s1 := s.update
      let (s2, result, effects) := s1.render acquire
      match result with
      | .ok _ => (s2, control_flow, effects)
      | .error SurfaceError.Lost =>
        let (s3, effects2) := s2.resize s2.size
        (s3, control_flow, effects ++ effects2)
      | .error SurfaceError.OutOfMemory => (s2, ControlFlow.Exit, effects)
      | .error e => (s2, control_flow, effects ++ [Effect.logError e])
    else
      (s, control_flow, [])
  | .mainEventsCleared => (s, control_flow, [Effect.requestRedraw])
  | .other => (s, control_flow, [])

/-- True for a `configureSurface` effect. -/
def Effect.isConfigure : Effect → Bool
  | .configureSurface _ _ => true
  | _ => false

/-- True for a `beginRenderPass` effect. -/
def Effect.isRenderPassCmd : Effect → Bool
  | .beginRenderPass _ => true
  | _ => false

/-- True for a `submit` effect. -/
def Effect.isSubmit : Effect → Bool
  | .submit _ => true
  | _ => false

/-- True for a `present` effect. -/
def Effect.isPresentCmd : Effect → Bool
  | .present => true
  | _ => false

/-- Spec-side reading of "the first sRGB-capable format in the list, if any
such format exists": scan left to right for a format with `is_srgb`. -/
def firstSrgbFormat : List TextureFormat → Option TextureFormat
  | [] => none
  | f :: fs => if f.is_srgb then some f else firstSrgbFormat fs

/-- A representative application state with a positive stored size, used to
instantiate theorems with hypotheses at a concrete input. -/
def sampleState : AppState :=
  { surface := 0
    device := 0
    queue := 0
    surface_config :=
      { usage := TextureUsages.RENDER_ATTACHMENT
        format := TextureFormat.Bgra8UnormSrgb
        width := 640
        height := 480
        present_mode := PresentMode.Fifo
        alpha_mode := CompositeAlphaMode.Auto
        view_formats := [] }
    size := ⟨640, 480⟩
    window := ⟨0, ⟨640, 480⟩⟩ }

/-- `AppState.new` on a 640x480 window with formats
`[Bgra8Unorm, Bgra8UnormSrgb]` produces exactly `sampleNewState`. -/
def sampleNewState : AppState :=
  { surface := 0
    device := 0
    queue := 0
    surface_config :=
      { usage := TextureUsages.RENDER_ATTACHMENT
        format := TextureFormat.Bgra8UnormSrgb
        width := 640
        height := 480
        present_mode := PresentMode.Fifo
        alpha_mode := CompositeAlphaMode.Auto
        view_formats := [] }
    size := ⟨640, 480⟩
    window := ⟨0, ⟨640, 480⟩⟩ }

/-- `List.find?` coincides with the spec-side left-to-right scan. -/
theorem find?_eq_firstSrgbFormat (l : List TextureFormat) :
    l.find? TextureFormat.is_srgb = firstSrgbFormat l := by
  induction l with
  | nil => rfl
  | cons f fs ih =>
    by_cases h : f.is_srgb
    · simp [List.find?_cons, h, firstSrgbFormat]
    · simp [List.find?_cons, h, firstSrgbFormat, ih]

/-- C1: a resize with positive width and height stores the new size, sets
the configuration's width and height to exactly those values, and
reconfigures the surface with that configuration. -/
theorem resize_positive_updates (s : AppState) (new_size : PhysicalSize)
    (hw : 0 < new_size.width) (hh : 0 < new_size.height) :
    (s.resize new_size).1.size = new_size ∧
    (s.resize new_size).1.surface_config.width = new_size.width ∧
    (s.resize new_size).1.surface_config.height = new_size.height ∧
    (s.resize new_size).2 =
      [Effect.configureSurface s.device (s.resize new_size).1.surface_config] := by
  simp [AppState.resize, hw, hh]

/-- C1 witness: the theorem applied at `sampleState` and size 3x4. -/
theorem resize_positive_updates_witness :
    (sampleState.resize ⟨3, 4⟩).1.size = (⟨3, 4⟩ : PhysicalSize) ∧
    (sampleState.resize ⟨3, 4⟩).1.surface_config.width = (⟨3, 4⟩ : PhysicalSize).width ∧
    (sampleState.resize ⟨3, 4⟩).1.surface_config.height = (⟨3, 4⟩ : PhysicalSize).height ∧
    (sampleState.resize ⟨3, 4⟩).2 =
      [Effect.configureSurface sampleState.device
        (sampleState.resize ⟨3, 4⟩).1.surface_config] :=
  resize_positive_updates sampleState ⟨3, 4⟩ (by decide) (by decide)

/-- C2: a resize with zero width or zero height returns the state unchanged
(all fields, in particular the stored size and the whole surface
configuration) and emits no effect, hence raises no error. -/
theorem resize_zero_noop (s : AppState) (new_size : PhysicalSize)
    (h : new_size.width = 0 ∨ new_size.height = 0) :
    s.resize new_size = (s, []) := by
  rcases h with h | h <;> simp [AppState.resize, h]

/-- C2 witness: the theorem applied at `sampleState` and size 0x7. -/
theorem resize_zero_noop_witness :
    sampleState.resize ⟨0, 7⟩ = (sampleState, []) :=
  resize_zero_noop sampleState ⟨0, 7⟩ (Or.inl rfl)

/-- C3: the code violates the positivity invariant at construction time.
When the window's inner size is 0x0 (for example a window minimized at
startup), `AppState::new` copies it into the surface configuration
unchecked, so the configuration's width and height are both 0 immediately
after construction — the source's own TODO comment acknowledges the
missing check. -/
theorem new_zero_size_config_dims_zero :
    (AppState.new ⟨0, ⟨0, 0⟩⟩ [TextureFormat.Bgra8UnormSrgb]).map
      (fun p => (p.1.surface_config.width, p.1.surface_config.height)) =
      some (0, 0) := by
  decide

/-- C4: whenever `render` returns `Ok`, the emitted trace holds exactly one
render pass, whose descriptor is the single white-clear attachment with
store enabled, exactly one submission, and exactly one presentation. -/
theorem render_ok_effects (s : AppState)
    (acquire : Except SurfaceError SurfaceTexture)
    (h : (s.render acquire).2.1 = Except.ok ()) :
    (s.render acquire).2.2.filter Effect.isRenderPassCmd =
      [Effect.beginRenderPass renderPassDesc] ∧
    (∀ att ∈ renderPassDesc.color_attachments, ∀ a, att = some a →
      a.ops.load = LoadOp.Clear { r := 1, g := 1, b := 1, a := 1 } ∧
      a.ops.store = true) ∧
    renderPassDesc.color_attachments.length = 1 ∧
    (s.render acquire).2.2.countP Effect.isSubmit = 1 ∧
    (s.render acquire).2.2.countP Effect.isPresentCmd = 1 := by
  match acquire with
  | .error e => simp [AppState.render] at h
  | .ok t =>
    refine ⟨rfl, ?_, rfl, rfl, rfl⟩
    intro att hatt a ha
    simp [renderPassDesc] at hatt
    subst hatt
    simp only [Option.some.injEq] at ha
    subst ha
    exact ⟨rfl, rfl⟩

/-- C4 witness: the theorem applied at `sampleState` with a successfully
acquired texture. -/
theorem render_ok_effects_witness :
    (sampleState.render (Except.ok ⟨0⟩)).2.2.filter Effect.isRenderPassCmd =
      [Effect.beginRenderPass renderPassDesc] ∧
    (∀ att ∈ renderPassDesc.color_attachments, ∀ a, att = some a →
      a.ops.load = LoadOp.Clear { r := 1, g := 1, b := 1, a := 1 } ∧
      a.ops.store = true) ∧
    renderPassDesc.color_attachments.length = 1 ∧
    (sampleState.render (Except.ok ⟨0⟩)).2.2.countP Effect.isSubmit = 1 ∧
    (sampleState.render (Except.ok ⟨0⟩)).2.2.countP Effect.isPresentCmd = 1 :=
  render_ok_effects sampleState (Except.ok ⟨0⟩) rfl

/-- C5 counterexample: starting from the state `AppState::new` builds for a
0x0 window (reachable because `new` performs no positivity check), a redraw
iteration in which `render` fails with `Lost` emits no `configureSurface`
effect at all: `resize` is called with the stored size 0x0 and ignores it,
so no surface reconfiguration with the stored size occurs. -/
theorem lost_zero_size_no_reconfigure :
    (AppState.new ⟨0, ⟨0, 0⟩⟩ [TextureFormat.Bgra8UnormSrgb]).map
      (fun p => ((runIteration p.1 ControlFlow.Poll (Event.redrawRequested 0)
        (Except.error SurfaceError.Lost)).2.2.countP Effect.isConfigure)) =
      some 0 := by
  decide

/-- C5 (amended): on a redraw iteration in which `render` fails with
`Lost`, the loop calls `resize` with the currently stored size; provided
that stored size has positive width and height, the surface is
reconfigured with exactly that size in the same iteration (before any next
render attempt), and the control flow is left unchanged, so the event loop
keeps running. -/
theorem lost_reconfigures_with_stored_size (s : AppState) (cf : ControlFlow)
    (hw : 0 < s.size.width) (hh : 0 < s.size.height) :
    (runIteration s cf (Event.redrawRequested s.window.id)
        (Except.error SurfaceError.Lost)).2.2 =
      [Effect.configureSurface s.device
        { s.surface_config with width := s.size.width, height := s.size.height }] ∧
    (runIteration s cf (Event.redrawRequested s.window.id)
        (Except.error SurfaceError.Lost)).1.size = s.size ∧
    (runIteration s cf (Event.redrawRequested s.window.id)
        (Except.error SurfaceError.Lost)).2.1 = cf := by
  simp [runIteration, AppState.update, AppState.render, AppState.resize, hw, hh]

/-- C5 witness: the amended theorem applied at `sampleState`. -/
theorem lost_reconfigures_with_stored_size_witness :
    (runIteration sampleState ControlFlow.Poll
        (Event.redrawRequested sampleState.window.id)
        (Except.error SurfaceError.Lost)).2.2 =
      [Effect.configureSurface sampleState.device
        { sampleState.surface_config with
            width := sampleState.size.width, height := sampleState.size.height }] ∧
    (runIteration sampleState ControlFlow.Poll
        (Event.redrawRequested sampleState.window.id)
        (Except.error SurfaceError.Lost)).1.size = sampleState.size ∧
    (runIteration sampleState ControlFlow.Poll
        (Event.redrawRequested sampleState.window.id)
        (Except.error SurfaceError.Lost)).2.1 = ControlFlow.Poll :=
  lost_reconfigures_with_stored_size sampleState ControlFlow.Poll
    (by decide) (by decide)

/-- C6: on a redraw iteration in which `render` fails with `OutOfMemory`,
the control flow is set to `Exit` in that same iteration. -/
theorem out_of_memory_exits (s : AppState) (cf : ControlFlow) :
    (runIteration s cf (Event.redrawRequested s.window.id)
        (Except.error SurfaceError.OutOfMemory)).2.1 = ControlFlow.Exit := by
  simp [runIteration, AppState.update, AppState.render]

/-- C7: on a redraw iteration in which `render` fails with a surface error
other than `Lost` and `OutOfMemory`, the error is logged, the state is
returned unchanged, the control flow is unchanged (the loop is not
terminated), and no other effect (no submission, no presentation) occurs:
the frame is dropped. -/
theorem other_surface_error_logged (s : AppState) (cf : ControlFlow)
    (e : SurfaceError) (h1 : e ≠ SurfaceError.Lost)
    (h2 : e ≠ SurfaceError.OutOfMemory) :
    runIteration s cf (Event.redrawRequested s.window.id) (Except.error e) =
      (s, cf, [Effect.logError e]) := by
  cases e with
  | Lost => exact absurd rfl h1
  | OutOfMemory => exact absurd rfl h2
  | Timeout => simp [runIteration, AppState.update, AppState.render]
  | Outdated => simp [runIteration, AppState.update, AppState.render]

/-- C7 witness: the theorem applied at `sampleState` with `Outdated`. -/
theorem other_surface_error_logged_witness :
    runIteration sampleState ControlFlow.Poll
        (Event.redrawRequested sampleState.window.id)
        (Except.error SurfaceError.Outdated) =
      (sampleState, ControlFlow.Poll, [Effect.logError SurfaceError.Outdated]) :=
  other_surface_error_logged sampleState ControlFlow.Poll SurfaceError.Outdated
    (by decide) (by decide)

/-- C8: a close request for the application's window, and a pressed-Escape
keyboard event for it, both set the control flow to `Exit`. -/
theorem close_or_escape_exits (s : AppState) (cf : ControlFlow)
    (acquire : Except SurfaceError SurfaceTexture) :
    (runIteration s cf (Event.windowEvent s.window.id WindowEvent.CloseRequested)
        acquire).2.1 = ControlFlow.Exit ∧
    (runIteration s cf (Event.windowEvent s.window.id
        (WindowEvent.KeyboardInput ElementState.Pressed (some VirtualKeyCode.Escape)))
        acquire).2.1 = ControlFlow.Exit := by
  constructor <;> simp [runIteration, AppState.input]

/-- C9: for a nonempty supported-format list, the configured surface format
is the first sRGB-capable format when one exists, and the first supported
format otherwise, and the configured present mode is `Fifo` (vsync). -/
theorem new_format_and_present_mode (window : Window) (f0 : TextureFormat)
    (rest : List TextureFormat) (s : AppState) (effects : List Effect)
    (h : AppState.new window (f0 :: rest) = some (s, effects)) :
    s.surface_config.format = (firstSrgbFormat (f0 :: rest)).getD f0 ∧
    s.surface_config.present_mode = PresentMode.Fifo := by
  simp only [AppState.new, Option.some.injEq, Prod.mk.injEq] at h
  obtain ⟨h1, _⟩ := h
  subst h1
  refine ⟨?_, rfl⟩
  simp [find?_eq_firstSrgbFormat]

/-- C9 witness: the theorem applied to a 640x480 window with formats
`[Bgra8Unorm, Bgra8UnormSrgb]`, whose first sRGB format is the second. -/
theorem new_format_and_present_mode_witness :
    sampleNewState.surface_config.format =
      (firstSrgbFormat
        [TextureFormat.Bgra8Unorm, TextureFormat.Bgra8UnormSrgb]).getD
        TextureFormat.Bgra8Unorm ∧
    sampleNewState.surface_config.present_mode = PresentMode.Fifo :=
  new_format_and_present_mode ⟨0, ⟨640, 480⟩⟩ TextureFormat.Bgra8Unorm
    [TextureFormat.Bgra8UnormSrgb] sampleNewState
    [Effect.configureSurface 0 sampleNewState.surface_config] (by decide)

/-- C10: when texture acquisition fails, `render` returns exactly the
surface error, emits no effect at all (in particular no view, no command
encoder, no render pass, no submission, no presentation), and returns the
application state whole and unchanged. -/
theorem render_error_atomic (s : AppState) (e : SurfaceError) :
    s.render (Except.error e) = (s, Except.error e, []) :=
  rfl

end WebGpu101
